import Mathlib

/-! License requests: validation and generation.

A shallow embedding of `generate/newlicense.go`.

* `generate.NewLicenseInfo` is the license request, `generate.Check` its validator
  (`(*NewLicenseInfo).Check`) and `generate.NewLicense` the generation entry point.
* The wall clock is explicit state: `time.Clock` holds the readings the clock will give,
  `time.Now` takes the next one.  `Check` calls `time.Now()` twice, so it consumes two
  readings whenever it gets past the node-count test.
* Errors follow the observable interface of `github.com/gravitational/trace`:
  an error value is a `BadParameterError`, some other error, or either of these with a
  stack trace attached (`TraceErr`).
* `newCertificate` (the signing step) is a parameter of `NewLicense`: it may read the clock
  and may return any bytes and any error.
-/

/-! ## Package `time` -/

namespace time

/-- Go `time.Duration`: a signed count of nanoseconds. -/
abbrev Duration := Int

/-- One hour, `time.Hour = 60 * 60 * 1e9` nanoseconds. -/
def Hour : Duration := 60 * 60 * 1000000000

/-- An instant, as nanoseconds on the timeline on which the clock is read.  For two values
that both come from `time.Now()`, Go's `Add` and `Before` work on the monotonic clock reading,
so a single integer timeline is what `Check` observes. -/
structure Time where
  ns : Int
deriving DecidableEq, Repr

/-- Go `t.Add(d)`: the instant `t + d`. -/
def Time.Add (t : Time) (d : Duration) : Time := ⟨t.ns + d⟩

/-- Go `t.Before(u)`: whether `t` is strictly earlier than `u`. -/
def Time.Before (t u : Time) : Bool := decide (t.ns < u.ns)

/-- Go `t.Sub(u)`: the duration `t - u`. -/
def Time.Sub (t u : Time) : Duration := t.ns - u.ns

/-- The clock: `readings k` is the value of the `k`-th call of `time.Now()`, and `reads` counts
the calls made so far. -/
structure Clock where
  readings : Nat → Int
  reads : Nat

/-- Go `time.Now()`: the next reading, and the clock after the call. -/
def Now (c : Clock) : Time × Clock :=
  (⟨c.readings c.reads⟩, { c with reads := c.reads + 1 })

/-- The reading that the `k`-th next call of `time.Now()` will return (`k = 0`: the next call). -/
def Clock.peek (c : Clock) (k : Nat) : Time := ⟨c.readings (c.reads + k)⟩

end time

/-! ## Package `trace` -/

namespace trace

/-- An `error` value: a bad-parameter error, any other error (identified by its text), or an
error carrying a stack trace (`*trace.TraceErr`, whose field `Err` is the error it wraps). -/
inductive Error where
  | BadParameterError (Message : String)
  | Other (text : String)
  | TraceErr (Err : Error)
deriving DecidableEq, Repr

/-- Go `trace.Wrap(err)` for a non-nil `err`: an error that already carries a trace is returned
as it is, any other error gets a trace attached. -/
def Wrap : Error → Error
  | .TraceErr e => .TraceErr e
  | e => .TraceErr e

/-- Go `trace.BadParameter(message)`: a traced `BadParameterError`. -/
def BadParameter (message : String) : Error :=
  Wrap (.BadParameterError message)

/-- Go `trace.Unwrap(err)`: the original error under the traces. -/
def Unwrap : Error → Error
  | .TraceErr e => Unwrap e
  | e => e

/-- Go `trace.IsBadParameter(err)`: whether the original error is a `BadParameterError`. -/
def IsBadParameter (e : Error) : Bool :=
  match Unwrap e with
  | .BadParameterError _ => true
  | _ => false

/-- Go `trace.UserMessage(err)`: the message of the original error. -/
def UserMessage (e : Error) : String :=
  match Unwrap e with
  | .BadParameterError m => m
  | .Other t => t
  | .TraceErr _ => ""

end trace

/-! ## Package `authority` -/

/-- A byte, the element type of Go `[]byte` and of Go `string`. -/
abbrev Byte := Fin 256

namespace authority

/-- Modelled from the spec: the type `authority.TLSKeyPair` is declared outside
`generate/newlicense.go`; it is "the signing authority's certificate + private key material".
`Check` reads only the length of `CertPEM`. -/
structure TLSKeyPair where
  KeyPEM : List Byte
  CertPEM : List Byte
deriving DecidableEq, Repr

end authority

/-! ## Package `generate` -/

namespace generate

/-- Go `NewLicenseInfo`: the fields needed to generate a license.  Text fields are byte
sequences, as Go strings are. -/
structure NewLicenseInfo where
  MaxNodes : Int
  ValidFor : time.Duration
  StopApp : Bool
  CustomerName : List Byte
  CustomerEmail : List Byte
  CustomerMetadata : List Byte
  ProductName : List Byte
  ProductVersion : List Byte
  AccountID : List Byte
  EncryptionKey : List Byte
  TLSKeyPair : authority.TLSKeyPair
deriving DecidableEq, Repr

/-- Go `(i *NewLicenseInfo) Check() error`; `none` is the `nil` error.  The first `time.Now()`
is the receiver of `Add`, the second the argument of `Before`; neither is called when the
node-count test fails. -/
def Check (i : NewLicenseInfo) (c : time.Clock) : Option trace.Error × time.Clock :=
  if i.MaxNodes < 1 then
    (some (trace.BadParameter "maximum number of servers must be 1 or more"), c)
  else
    let (t1, c1) := time.Now c
    let (t2, c2) := time.Now c1
    if (t1.Add i.ValidFor).Before t2 then
      (some (trace.BadParameter "expiration date can't be in the past"), c2)
    else if i.TLSKeyPair.CertPEM.length = 0 then
      (some (trace.BadParameter "certificate authority must be provided"), c2)
    else
      (none, c2)

/-- The type of the signing step `newCertificate(info) ([]byte, error)`, which is defined
outside `generate/newlicense.go`: it may read the clock and returns bytes and an error. -/
abbrev Signer := NewLicenseInfo → time.Clock → (List Byte × Option trace.Error) × time.Clock

/-- Go `string(b)` for `b []byte`: the string with the same bytes. -/
def string (b : List Byte) : List Byte := b

/-- Go `NewLicense(info) (string, error)`, with the signing step `newCertificate` as a
parameter. -/
def NewLicense (newCertificate : Signer) (info : NewLicenseInfo) (c : time.Clock) :
    (List Byte × Option trace.Error) × time.Clock :=
  match Check info c with
  | (some err, c1) => (([], some (trace.Wrap err)), c1)
  | (none, c1) =>
    match newCertificate info c1 with
    | ((_, some err), c2) => (([], some (trace.Wrap err)), c2)
    | ((certificateBytes, none), c2) => ((string certificateBytes, none), c2)

/-- The single-sample validator the specification asks for: `now` is captured once and used
both for the expiry addition and for the validity comparison, and the request is rejected
when the computed expiry `now + ValidFor` is not strictly after `now` (so `ValidFor <= 0` is
invalid).  The other two tests and the messages are those of `Check`. -/
def CheckSingleSample (i : NewLicenseInfo) (now : time.Time) : Option trace.Error :=
  if i.MaxNodes < 1 then
    some (trace.BadParameter "maximum number of servers must be 1 or more")
  else if now.Before (now.Add i.ValidFor) = false then
    some (trace.BadParameter "expiration date can't be in the past")
  else if i.TLSKeyPair.CertPEM.length = 0 then
    some (trace.BadParameter "certificate authority must be provided")
  else
    none

/-! ### Sample inputs -/

/-- A request with the given node count, validity period and authority certificate, every
other field empty. -/
def request (maxNodes : Int) (validFor : time.Duration) (certPEM : List Byte) : NewLicenseInfo :=
  { MaxNodes := maxNodes, ValidFor := validFor, StopApp := false,
    CustomerName := [], CustomerEmail := [], CustomerMetadata := [],
    ProductName := [], ProductVersion := [], AccountID := [], EncryptionKey := [],
    TLSKeyPair := { KeyPEM := [], CertPEM := certPEM } }

/-- A clock that starts at `start` and advances by `step` nanoseconds between readings. -/
def steadyClock (start step : Int) : time.Clock :=
  { readings := fun k => start + step * k, reads := 0 }

/-- A clock whose first two readings coincide at 0 and whose later readings are 2, 3, ... -/
def stallingClock : time.Clock :=
  { readings := fun k => if k < 2 then 0 else k, reads := 0 }

/-- A signing step that reads the clock once and returns fixed bytes. -/
def fixedSigner (certificateBytes : List Byte) : Signer :=
  fun _ c => ((certificateBytes, none), (time.Now c).2)

/-- A signing step that fails with the given error, returning some bytes all the same. -/
def failingSigner (err : trace.Error) : Signer :=
  fun _ c => (([1, 2, 3], some err), c)

end generate

/-! ## Facts about `trace` -/

namespace trace

/-- Wrapping keeps the original error. -/
theorem Unwrap_Wrap (e : Error) : Unwrap (Wrap e) = Unwrap e := by
  cases e <;> simp [Wrap, Unwrap]

/-- Wrapping keeps the kind of the error. -/
theorem IsBadParameter_Wrap (e : Error) : IsBadParameter (Wrap e) = IsBadParameter e := by
  simp [IsBadParameter, Unwrap_Wrap]

/-- Wrapping keeps the message of the error. -/
theorem UserMessage_Wrap (e : Error) : UserMessage (Wrap e) = UserMessage e := by
  simp [UserMessage, Unwrap_Wrap]

/-- An error made by `BadParameter` is a bad-parameter error. -/
theorem IsBadParameter_BadParameter (m : String) : IsBadParameter (BadParameter m) = true := by
  simp [IsBadParameter, BadParameter, Wrap, Unwrap]

/-- An error made by `BadParameter` carries the message it was given. -/
theorem UserMessage_BadParameter (m : String) : UserMessage (BadParameter m) = m := by
  simp [UserMessage, BadParameter, Wrap, Unwrap]

/-- Errors made by `BadParameter` from different messages are different. -/
theorem BadParameter_injective (m n : String) (h : BadParameter m = BadParameter n) : m = n := by
  simpa [BadParameter, Wrap] using h

end trace

/-! ## Facts about `Check` and `NewLicense` -/

namespace generate

/-- The error returned by `Check`, by cases on the request and on the next two clock readings. -/
theorem Check_fst (i : NewLicenseInfo) (c : time.Clock) :
    (Check i c).1 =
      if i.MaxNodes < 1 then
        some (trace.BadParameter "maximum number of servers must be 1 or more")
      else if i.ValidFor < (c.peek 1).Sub (c.peek 0) then
        some (trace.BadParameter "expiration date can't be in the past")
      else if i.TLSKeyPair.CertPEM = [] then
        some (trace.BadParameter "certificate authority must be provided")
      else none := by
  unfold Check
  by_cases h1 : i.MaxNodes < 1
  · simp [h1]
  · have hlt : (c.readings c.reads + i.ValidFor < c.readings (c.reads + 1)) ↔
        (i.ValidFor < c.readings (c.reads + 1) - c.readings (c.reads + 0)) := by
      simp only [Nat.add_zero]
      constructor <;> intro h <;> linarith
    simp only [h1, if_false, time.Now, time.Time.Add, time.Time.Before, time.Clock.peek,
      time.Time.Sub, decide_eq_true_eq, List.length_eq_zero, hlt]
    split_ifs <;> rfl

/-- The clock after `Check`: untouched when the node count is rejected, two readings later
otherwise. -/
theorem Check_snd (i : NewLicenseInfo) (c : time.Clock) :
    (Check i c).2 = if i.MaxNodes < 1 then c else { c with reads := c.reads + 2 } := by
  unfold Check
  by_cases h1 : i.MaxNodes < 1
  · simp [h1]
  · simp only [h1, if_false, time.Now]
    split_ifs <;> rfl

/-- Every error returned by `Check` is a bad-parameter error. -/
theorem Check_error_kind (i : NewLicenseInfo) (c : time.Clock) (e : trace.Error)
    (h : (Check i c).1 = some e) : trace.IsBadParameter e = true := by
  rw [Check_fst] at h
  split_ifs at h <;> cases h <;> exact trace.IsBadParameter_BadParameter _

/-- The readings seen by a call of `Check` that follows another call of `Check`. -/
theorem peek_after_Check (i : NewLicenseInfo) (c : time.Clock) (h : ¬ i.MaxNodes < 1)
    (k : Nat) : (Check i c).2.peek k = c.peek (k + 2) := by
  rw [Check_snd, if_neg h]
  simp [time.Clock.peek, Nat.add_comm k 2, Nat.add_assoc]

/-- C3: every request with `MaxNodes < 1` is rejected by `Check`, whatever its other fields and
whatever the clock, with a bad-parameter error whose message is
"maximum number of servers must be 1 or more"; the clock is not read. -/
theorem Check_rejects_MaxNodes_below_one (i : NewLicenseInfo) (c : time.Clock)
    (h : i.MaxNodes < 1) :
    Check i c = (some (trace.BadParameter "maximum number of servers must be 1 or more"), c) ∧
    trace.IsBadParameter (trace.BadParameter "maximum number of servers must be 1 or more") = true ∧
    trace.UserMessage (trace.BadParameter "maximum number of servers must be 1 or more") =
      "maximum number of servers must be 1 or more" := by
  refine ⟨?_, trace.IsBadParameter_BadParameter _, trace.UserMessage_BadParameter _⟩
  simp [Check, h]

/-- C3 at a request with `MaxNodes = -2`, a negative `ValidFor` and no authority certificate. -/
theorem Check_rejects_MaxNodes_below_one_witness :
    (request (-2) (-time.Hour) []).MaxNodes < 1 ∧
    Check (request (-2) (-time.Hour) []) (steadyClock 0 50) =
      (some (trace.BadParameter "maximum number of servers must be 1 or more"),
        steadyClock 0 50) :=
  ⟨by decide, (Check_rejects_MaxNodes_below_one _ _ (by decide)).1⟩

/-- C5: a request whose authority certificate is empty is always rejected by `Check` with a
bad-parameter error, whatever its other fields and the clock; when moreover `MaxNodes >= 1`
and the expiry (first reading plus `ValidFor`) is not before the second reading, the error is
the one with message "certificate authority must be provided". -/
theorem Check_rejects_empty_certificate (i : NewLicenseInfo) (c : time.Clock)
    (h : i.TLSKeyPair.CertPEM.length = 0) :
    (∃ e, (Check i c).1 = some e ∧ trace.IsBadParameter e = true) ∧
    (1 ≤ i.MaxNodes → ((c.peek 0).Add i.ValidFor).Before (c.peek 1) = false →
      (Check i c).1 = some (trace.BadParameter "certificate authority must be provided") ∧
      trace.UserMessage (trace.BadParameter "certificate authority must be provided") =
        "certificate authority must be provided") := by
  have hnil : i.TLSKeyPair.CertPEM = [] := List.length_eq_zero.mp h
  constructor
  · have hsome : ∃ e, (Check i c).1 = some e := by
      rw [Check_fst]
      split_ifs <;> exact ⟨_, rfl⟩
    obtain ⟨e, he⟩ := hsome
    exact ⟨e, he, Check_error_kind i c e he⟩
  · intro h1 h2
    refine ⟨?_, trace.UserMessage_BadParameter _⟩
    have h2' : ¬ i.ValidFor < (c.peek 1).Sub (c.peek 0) := by
      simp only [time.Time.Before, time.Time.Add, time.Time.Sub, decide_eq_false_iff_not] at h2 ⊢
      intro hlt
      exact h2 (by linarith)
    rw [Check_fst, if_neg (not_lt.mpr h1), if_neg h2', if_pos hnil]

/-- C5 at the request `MaxNodes = 3`, `ValidFor = 1h` with an empty certificate. -/
theorem Check_rejects_empty_certificate_witness :
    (request 3 time.Hour []).TLSKeyPair.CertPEM.length = 0 ∧
    (Check (request 3 time.Hour []) (steadyClock 0 50)).1 =
      some (trace.BadParameter "certificate authority must be provided") :=
  ⟨by decide,
    ((Check_rejects_empty_certificate (request 3 time.Hour []) (steadyClock 0 50)
      (by decide)).2 (by decide) (by decide)).1⟩

/-- C10: for a request with `MaxNodes >= 1` and clock readings `t1 <= t2` (the first used for
the addition, the second for the comparison), `Check` fails with the error
"expiration date can't be in the past" if and only if `ValidFor < t2 - t1`.  Hence the same
request with any negative `ValidFor` is rejected with that error, and with `ValidFor = 0` it
is rejected with that error exactly when the second reading is later than the first. -/
theorem Check_expiry_boundary (i : NewLicenseInfo) (c : time.Clock)
    (h1 : 1 ≤ i.MaxNodes) (h2 : (c.peek 0).ns ≤ (c.peek 1).ns) :
    ((Check i c).1 = some (trace.BadParameter "expiration date can't be in the past") ↔
      i.ValidFor < (c.peek 1).Sub (c.peek 0)) ∧
    (i.ValidFor < 0 →
      (Check i c).1 = some (trace.BadParameter "expiration date can't be in the past")) ∧
    (i.ValidFor = 0 →
      ((Check i c).1 = some (trace.BadParameter "expiration date can't be in the past") ↔
        (c.peek 0).ns < (c.peek 1).ns)) ∧
    trace.UserMessage (trace.BadParameter "expiration date can't be in the past") =
      "expiration date can't be in the past" := by
  have key : (Check i c).1 = some (trace.BadParameter "expiration date can't be in the past") ↔
      i.ValidFor < (c.peek 1).Sub (c.peek 0) := by
    rw [Check_fst, if_neg (not_lt.mpr h1)]
    constructor
    · intro h
      by_contra hv
      rw [if_neg hv] at h
      split_ifs at h
      · have := trace.BadParameter_injective _ _ (Option.some.inj h)
        exact absurd this (by decide)
    · intro hv
      rw [if_pos hv]
  refine ⟨key, ?_, ?_, trace.UserMessage_BadParameter _⟩
  · intro hneg
    refine key.mpr ?_
    simp only [time.Time.Sub]
    linarith
  · intro hzero
    rw [key, hzero]
    simp only [time.Time.Sub]
    constructor <;> intro h <;> linarith

/-- C10 at `MaxNodes = 1`, `ValidFor = -1h`, on a clock that advances 50ns between readings. -/
theorem Check_expiry_boundary_witness :
    1 ≤ (request 1 (-time.Hour) [1]).MaxNodes ∧
    ((steadyClock 0 50).peek 0).ns ≤ ((steadyClock 0 50).peek 1).ns ∧
    ((Check (request 1 (-time.Hour) [1]) (steadyClock 0 50)).1 =
        some (trace.BadParameter "expiration date can't be in the past") ↔
      (request 1 (-time.Hour) [1]).ValidFor <
        ((steadyClock 0 50).peek 1).Sub ((steadyClock 0 50).peek 0)) :=
  ⟨by decide, by decide,
    (Check_expiry_boundary (request 1 (-time.Hour) [1]) (steadyClock 0 50)
      (by decide) (by decide)).1⟩

/-- The expiry test of the single-sample validator fails exactly when `ValidFor <= 0`. -/
theorem CheckSingleSample_eq (i : NewLicenseInfo) (now : time.Time) :
    CheckSingleSample i now =
      if i.MaxNodes < 1 then
        some (trace.BadParameter "maximum number of servers must be 1 or more")
      else if i.ValidFor ≤ 0 then
        some (trace.BadParameter "expiration date can't be in the past")
      else if i.TLSKeyPair.CertPEM = [] then
        some (trace.BadParameter "certificate authority must be provided")
      else none := by
  unfold CheckSingleSample
  have hle : ¬ (now.ns < now.ns + i.ValidFor) ↔ i.ValidFor ≤ 0 := by
    constructor <;> intro h <;> linarith
  simp only [time.Time.Add, time.Time.Before, decide_eq_false_iff_not, List.length_eq_zero, hle]

/-- C4, counterexample: the request `MaxNodes = 1`, `ValidFor = 0` with a certificate passes
`Check` when the two clock readings coincide, and its expiry is then not strictly later than
the issuance time. -/
theorem Check_accepts_zero_ValidFor :
    (request 1 0 [1]).ValidFor ≤ 0 ∧
    ((steadyClock 0 0).peek 0).ns ≤ ((steadyClock 0 0).peek 1).ns ∧
    (Check (request 1 0 [1]) (steadyClock 0 0)).1 = none ∧
    ¬ ((steadyClock 0 0).peek 0).ns <
      (((steadyClock 0 0).peek 0).Add (request 1 0 [1]).ValidFor).ns := by
  decide

/-- C4, amended: with clock readings `t1 <= t2`, `Check` fails with a bad-parameter error for
every request with `ValidFor < 0`, and for `ValidFor = 0` when `t1 < t2`; whenever `Check`
succeeds the expiry `t1 + ValidFor` is not before `t2`, hence not before `t1`. -/
theorem Check_rejects_negative_ValidFor (i : NewLicenseInfo) (c : time.Clock)
    (h : (c.peek 0).ns ≤ (c.peek 1).ns) :
    ((i.ValidFor < 0 ∨ (i.ValidFor = 0 ∧ (c.peek 0).ns < (c.peek 1).ns)) →
      ∃ e, (Check i c).1 = some e ∧ trace.IsBadParameter e = true) ∧
    ((Check i c).1 = none →
      ((c.peek 0).Add i.ValidFor).Before (c.peek 1) = false ∧
      (c.peek 0).ns ≤ ((c.peek 0).Add i.ValidFor).ns) := by
  constructor
  · intro hv
    have hgap : i.ValidFor < (c.peek 1).Sub (c.peek 0) := by
      simp only [time.Time.Sub]
      rcases hv with hv | ⟨hv, hlt⟩ <;> linarith
    have hsome : ∃ e, (Check i c).1 = some e := by
      rw [Check_fst]
      split_ifs <;> exact ⟨_, rfl⟩
    obtain ⟨e, he⟩ := hsome
    exact ⟨e, he, Check_error_kind i c e he⟩
  · intro hok
    rw [Check_fst] at hok
    split_ifs at hok with h1 h2 h3
    simp only [time.Time.Sub, not_lt] at h2
    simp only [time.Time.Before, time.Time.Add, decide_eq_false_iff_not, not_lt]
    constructor <;> linarith

/-- C4, amended, at `MaxNodes = 1`, `ValidFor = 0` on a clock that advances between readings. -/
theorem Check_rejects_negative_ValidFor_witness :
    ((steadyClock 0 50).peek 0).ns ≤ ((steadyClock 0 50).peek 1).ns ∧
    ∃ e, (Check (request 1 0 [1]) (steadyClock 0 50)).1 = some e ∧
      trace.IsBadParameter e = true :=
  ⟨by decide,
    (Check_rejects_negative_ValidFor (request 1 0 [1]) (steadyClock 0 50) (by decide)).1
      (Or.inr ⟨by decide, by decide⟩)⟩

/-- C6, counterexample: the request `MaxNodes = 1`, `ValidFor = 1ns` with a certificate is
rejected when the clock advances by 2ns between the two readings. -/
theorem Check_rejects_short_positive_ValidFor :
    1 ≤ (request 1 1 [1]).MaxNodes ∧
    (request 1 1 [1]).TLSKeyPair.CertPEM ≠ [] ∧
    0 < (request 1 1 [1]).ValidFor ∧
    ((steadyClock 0 2).peek 0).ns ≤ ((steadyClock 0 2).peek 1).ns ∧
    (Check (request 1 1 [1]) (steadyClock 0 2)).1 =
      some (trace.BadParameter "expiration date can't be in the past") := by
  decide

/-- C6, amended: `Check` succeeds for every request with `MaxNodes >= 1`, a non-empty
authority certificate, and an expiry (first reading plus `ValidFor`) not before the second
clock reading, that is `ValidFor >= t2 - t1`; the free-form fields are unconstrained. -/
theorem Check_accepts_valid_request (i : NewLicenseInfo) (c : time.Clock)
    (h1 : 1 ≤ i.MaxNodes) (h2 : i.TLSKeyPair.CertPEM ≠ [])
    (h3 : (c.peek 1).Sub (c.peek 0) ≤ i.ValidFor) :
    (Check i c).1 = none := by
  rw [Check_fst, if_neg (not_lt.mpr h1), if_neg (not_lt.mpr h3), if_neg h2]

/-- C6, amended, at `MaxNodes = 3`, `ValidFor = 1h` on a clock that advances by 50ns. -/
theorem Check_accepts_valid_request_witness :
    1 ≤ (request 3 time.Hour [1]).MaxNodes ∧
    (request 3 time.Hour [1]).TLSKeyPair.CertPEM ≠ [] ∧
    ((steadyClock 0 50).peek 1).Sub ((steadyClock 0 50).peek 0) ≤
      (request 3 time.Hour [1]).ValidFor ∧
    (Check (request 3 time.Hour [1]) (steadyClock 0 50)).1 = none :=
  ⟨by decide, by decide, by decide,
    Check_accepts_valid_request (request 3 time.Hour [1]) (steadyClock 0 50)
      (by decide) (by decide) (by decide)⟩

/-- C7, counterexample: with readings `t1 = 0 <= t2 = 2` the request `MaxNodes = 1`,
`ValidFor = 1ns` is rejected by `Check` and accepted by the single-sample check at `t1`. -/
theorem Check_differs_from_single_sample :
    ((steadyClock 0 2).peek 0).ns ≤ ((steadyClock 0 2).peek 1).ns ∧
    (Check (request 1 1 [1]) (steadyClock 0 2)).1 =
      some (trace.BadParameter "expiration date can't be in the past") ∧
    CheckSingleSample (request 1 1 [1]) ((steadyClock 0 2).peek 0) = none := by
  decide

/-- C7, amended: `Check` takes two clock readings `t1 <= t2`; its result is a function of the
request and these two readings, and it equals that of the single-sample check at `t1` (which
rejects `ValidFor <= 0`) exactly when `MaxNodes < 1`, or `ValidFor < 0`, or `ValidFor = 0`
and `t1 < t2`, or `ValidFor > 0` and `ValidFor >= t2 - t1`. -/
theorem Check_eq_single_sample_iff (i : NewLicenseInfo) (c : time.Clock)
    (h : (c.peek 0).ns ≤ (c.peek 1).ns) :
    (∀ c2 : time.Clock, c2.peek 0 = c.peek 0 → c2.peek 1 = c.peek 1 →
      (Check i c2).1 = (Check i c).1) ∧
    ((Check i c).1 = CheckSingleSample i (c.peek 0) ↔
      (i.MaxNodes < 1 ∨ i.ValidFor < 0 ∨
        (i.ValidFor = 0 ∧ (c.peek 0).ns < (c.peek 1).ns) ∨
        (0 < i.ValidFor ∧ (c.peek 1).Sub (c.peek 0) ≤ i.ValidFor))) := by
  refine ⟨fun c2 h0 h1 => by rw [Check_fst, Check_fst, h0, h1], ?_⟩
  have hside : (i.ValidFor < 0 ∨ (i.ValidFor = 0 ∧ (c.peek 0).ns < (c.peek 1).ns) ∨
      (0 < i.ValidFor ∧ (c.peek 1).Sub (c.peek 0) ≤ i.ValidFor)) ↔
      (i.ValidFor < (c.peek 1).Sub (c.peek 0) ↔ i.ValidFor ≤ 0) := by
    have harith : ∀ a b v : Int, a ≤ b →
        ((v < 0 ∨ (v = 0 ∧ a < b) ∨ (0 < v ∧ b - a ≤ v)) ↔ (v < b - a ↔ v ≤ 0)) := by
      intro a b v hab
      omega
    exact harith _ _ _ h
  rw [hside, Check_fst, CheckSingleSample_eq]
  have hne : trace.BadParameter "certificate authority must be provided" ≠
      trace.BadParameter "expiration date can't be in the past" := by decide
  by_cases h1 : i.MaxNodes < 1
  · simp [h1]
  · by_cases ha : i.ValidFor < (c.peek 1).Sub (c.peek 0) <;>
      by_cases hb : i.ValidFor ≤ 0 <;>
      by_cases hcert : i.TLSKeyPair.CertPEM = [] <;>
      simp [h1, ha, hb, hcert, hne, hne.symm]

/-- C7, amended, at `MaxNodes = 3`, `ValidFor = 1h` on a clock that advances by 50ns. -/
theorem Check_eq_single_sample_iff_witness :
    ((steadyClock 0 50).peek 0).ns ≤ ((steadyClock 0 50).peek 1).ns ∧
    (Check (request 3 time.Hour [1]) (steadyClock 0 50)).1 =
      CheckSingleSample (request 3 time.Hour [1]) ((steadyClock 0 50).peek 0) :=
  ⟨by decide,
    (Check_eq_single_sample_iff (request 3 time.Hour [1]) (steadyClock 0 50) (by decide)).2.mpr
      (Or.inr (Or.inr (Or.inr ⟨by decide, by decide⟩)))⟩

/-- C9, counterexample: on a clock reading 0, 0, 2, 3 the request `MaxNodes = 1`,
`ValidFor = 0` with a certificate passes a first `Check` and fails the `Check` that follows. -/
theorem Check_twice_differs :
    (stallingClock.peek 0).ns ≤ (stallingClock.peek 1).ns ∧
    (stallingClock.peek 1).ns ≤ (stallingClock.peek 2).ns ∧
    (stallingClock.peek 2).ns ≤ (stallingClock.peek 3).ns ∧
    (Check (request 1 0 [1]) stallingClock).1 = none ∧
    (Check (request 1 0 [1]) (Check (request 1 0 [1]) stallingClock).2).1 =
      some (trace.BadParameter "expiration date can't be in the past") := by
  decide

/-- C9, amended: two successive calls of `Check` on the same request, the first reading the
clock at `t1 <= t2` and the second at `t3 <= t4`, return the same result exactly when
`MaxNodes < 1` or `ValidFor` is on the same side of both clock gaps
(`ValidFor < t2 - t1` if and only if `ValidFor < t4 - t3`); so they agree for every negative
`ValidFor` and for every `ValidFor` that is at least both gaps. -/
theorem Check_twice_same_iff (i : NewLicenseInfo) (c : time.Clock)
    (h12 : (c.peek 0).ns ≤ (c.peek 1).ns) (h34 : (c.peek 2).ns ≤ (c.peek 3).ns) :
    ((Check i (Check i c).2).1 = (Check i c).1 ↔
      (i.MaxNodes < 1 ∨
        (i.ValidFor < (c.peek 1).Sub (c.peek 0) ↔ i.ValidFor < (c.peek 3).Sub (c.peek 2)))) ∧
    (i.ValidFor < 0 → (Check i (Check i c).2).1 = (Check i c).1) ∧
    ((c.peek 1).Sub (c.peek 0) ≤ i.ValidFor → (c.peek 3).Sub (c.peek 2) ≤ i.ValidFor →
      (Check i (Check i c).2).1 = (Check i c).1) := by
  have key : (Check i (Check i c).2).1 = (Check i c).1 ↔
      (i.MaxNodes < 1 ∨
        (i.ValidFor < (c.peek 1).Sub (c.peek 0) ↔
          i.ValidFor < (c.peek 3).Sub (c.peek 2))) := by
    by_cases h1 : i.MaxNodes < 1
    · rw [Check_fst i (Check i c).2, Check_fst i c]
      simp [h1]
    · rw [Check_fst i (Check i c).2, peek_after_Check i c h1 1, peek_after_Check i c h1 0,
        Check_fst i c]
      simp only [h1, if_false, false_or]
      have hne : trace.BadParameter "certificate authority must be provided" ≠
          trace.BadParameter "expiration date can't be in the past" := by decide
      by_cases ha : i.ValidFor < (c.peek 1).Sub (c.peek 0) <;>
        by_cases hb : i.ValidFor < (c.peek 3).Sub (c.peek 2) <;>
        by_cases hcert : i.TLSKeyPair.CertPEM = [] <;>
        simp [ha, hb, hcert, hne, hne.symm]
  refine ⟨key, ?_, ?_⟩
  · intro hneg
    refine key.mpr (Or.inr ?_)
    simp only [time.Time.Sub]
    constructor <;> intro _ <;> linarith
  · intro ha hb
    refine key.mpr (Or.inr ?_)
    constructor <;> intro hlt <;> linarith

/-- C9, amended, at `MaxNodes = 3`, `ValidFor = 1h` on a clock that advances by 50ns. -/
theorem Check_twice_same_iff_witness :
    ((steadyClock 0 50).peek 0).ns ≤ ((steadyClock 0 50).peek 1).ns ∧
    ((steadyClock 0 50).peek 2).ns ≤ ((steadyClock 0 50).peek 3).ns ∧
    (Check (request 3 time.Hour [1])
      (Check (request 3 time.Hour [1]) (steadyClock 0 50)).2).1 =
      (Check (request 3 time.Hour [1]) (steadyClock 0 50)).1 :=
  ⟨by decide, by decide,
    (Check_twice_same_iff (request 3 time.Hour [1]) (steadyClock 0 50)
      (by decide) (by decide)).2.2 (by decide) (by decide)⟩

/-- The outcome of `NewLicense` when `Check` rejects the request. -/
theorem NewLicense_of_Check_error (newCertificate : Signer) (info : NewLicenseInfo)
    (c : time.Clock) (err : trace.Error) (h : (Check info c).1 = some err) :
    NewLicense newCertificate info c = (([], some (trace.Wrap err)), (Check info c).2) := by
  unfold NewLicense
  rcases hc : Check info c with ⟨r, c1⟩
  rw [hc] at h
  cases h
  rfl

/-- The outcome of `NewLicense` when `Check` accepts the request. -/
theorem NewLicense_of_Check_ok (newCertificate : Signer) (info : NewLicenseInfo)
    (c : time.Clock) (h : (Check info c).1 = none) :
    NewLicense newCertificate info c =
      match newCertificate info (Check info c).2 with
      | ((_, some err), c2) => (([], some (trace.Wrap err)), c2)
      | ((certificateBytes, none), c2) => ((string certificateBytes, none), c2) := by
  unfold NewLicense
  rcases hc : Check info c with ⟨r, c1⟩
  rw [hc] at h
  cases h
  rfl

/-- C1: when `Check` rejects the request with `err`, `NewLicense` returns the empty string and
`trace.Wrap err`, an error with the same original error, bad-parameter kind and message as
`err`, leaves the clock as `Check` left it, and its whole outcome is the same for every
signing step, so `newCertificate` is not consulted; hence `NewLicense` returns a text without
error only for requests with `MaxNodes >= 1` and a non-empty authority certificate. -/
theorem NewLicense_gated_by_Check (newCertificate : Signer) (info : NewLicenseInfo)
    (c : time.Clock) :
    (∀ err, (Check info c).1 = some err →
      (NewLicense newCertificate info c).1 = ([], some (trace.Wrap err)) ∧
      trace.Unwrap (trace.Wrap err) = trace.Unwrap err ∧
      trace.IsBadParameter (trace.Wrap err) = true ∧
      trace.UserMessage (trace.Wrap err) = trace.UserMessage err ∧
      (NewLicense newCertificate info c).2 = (Check info c).2 ∧
      ∀ other : Signer, NewLicense other info c = NewLicense newCertificate info c) ∧
    (∀ text, (NewLicense newCertificate info c).1 = (text, none) →
      1 ≤ info.MaxNodes ∧ info.TLSKeyPair.CertPEM ≠ []) := by
  constructor
  · intro err h
    refine ⟨?_, trace.Unwrap_Wrap err, ?_, trace.UserMessage_Wrap err, ?_, ?_⟩
    · rw [NewLicense_of_Check_error newCertificate info c err h]
    · rw [trace.IsBadParameter_Wrap]
      exact Check_error_kind info c err h
    · rw [NewLicense_of_Check_error newCertificate info c err h]
    · intro other
      rw [NewLicense_of_Check_error newCertificate info c err h,
        NewLicense_of_Check_error other info c err h]
  · intro text h
    have hok : (Check info c).1 = none := by
      cases hc : (Check info c).1 with
      | none => rfl
      | some err =>
        rw [NewLicense_of_Check_error newCertificate info c err hc] at h
        cases h
    rw [Check_fst] at hok
    split_ifs at hok with h1 h2 h3
    exact ⟨not_lt.mp h1, h3⟩

/-- C8: `NewLicense` either returns no error and the string of the bytes produced by the
signing step (run on the clock left by a successful `Check`), or returns an error and the
empty string; when `Check` accepts the request and the signing step fails with `err`, the
error returned is `trace.Wrap err`, which has the same original error and message as `err`. -/
theorem NewLicense_no_partial_success (newCertificate : Signer) (info : NewLicenseInfo)
    (c : time.Clock) :
    (((NewLicense newCertificate info c).1.2 = none ∧
        (Check info c).1 = none ∧
        (newCertificate info (Check info c).2).1.2 = none ∧
        (NewLicense newCertificate info c).1.1 =
          string (newCertificate info (Check info c).2).1.1) ∨
      ((NewLicense newCertificate info c).1.2 ≠ none ∧
        (NewLicense newCertificate info c).1.1 = [])) ∧
    (∀ err, (Check info c).1 = none →
      (newCertificate info (Check info c).2).1.2 = some err →
      (NewLicense newCertificate info c).1 = ([], some (trace.Wrap err)) ∧
      trace.Unwrap (trace.Wrap err) = trace.Unwrap err ∧
      trace.UserMessage (trace.Wrap err) = trace.UserMessage err) := by
  constructor
  · cases hc : (Check info c).1 with
    | some err =>
      right
      rw [NewLicense_of_Check_error newCertificate info c err hc]
      exact ⟨by simp, rfl⟩
    | none =>
      rw [NewLicense_of_Check_ok newCertificate info c hc]
      rcases hs : newCertificate info (Check info c).2 with ⟨⟨bytes, r⟩, c2⟩
      cases r with
      | some err =>
        right
        exact ⟨by simp, rfl⟩
      | none =>
        left
        exact ⟨rfl, rfl, rfl, rfl⟩
  · intro err hc hs
    refine ⟨?_, trace.Unwrap_Wrap err, trace.UserMessage_Wrap err⟩
    rw [NewLicense_of_Check_ok newCertificate info c hc]
    rcases hs2 : newCertificate info (Check info c).2 with ⟨⟨bytes, r⟩, c2⟩
    rw [hs2] at hs
    cases hs
    rfl

/-- C1 at a request with `MaxNodes = 0`: `NewLicense` returns the empty string and the wrapped
error of `Check`, with a signing step that would have succeeded. -/
theorem NewLicense_gated_by_Check_witness :
    (Check (request 0 time.Hour [1]) (steadyClock 0 50)).1 =
      some (trace.BadParameter "maximum number of servers must be 1 or more") ∧
    (NewLicense (fixedSigner [7, 8]) (request 0 time.Hour [1]) (steadyClock 0 50)).1 =
      ([], some (trace.Wrap
        (trace.BadParameter "maximum number of servers must be 1 or more"))) :=
  ⟨by decide,
    ((NewLicense_gated_by_Check (fixedSigner [7, 8]) (request 0 time.Hour [1])
      (steadyClock 0 50)).1 _ (by decide)).1⟩

/-- C8 at a valid request whose signing step fails with the error "signing failed" while
returning bytes: `NewLicense` returns the empty string and the wrapped signing error. -/
theorem NewLicense_no_partial_success_witness :
    (Check (request 3 time.Hour [1]) (steadyClock 0 50)).1 = none ∧
    (NewLicense (failingSigner (trace.Error.Other "signing failed")) (request 3 time.Hour [1])
      (steadyClock 0 50)).1 =
      ([], some (trace.Wrap (trace.Error.Other "signing failed"))) :=
  ⟨by decide,
    ((NewLicense_no_partial_success (failingSigner (trace.Error.Other "signing failed"))
      (request 3 time.Hour [1]) (steadyClock 0 50)).2 _ (by decide) (by decide)).1⟩

end generate
